import Mathlib

/-!
Shallow embedding of `src/backend/src/services/categoryService.ts`
(class `CategoryService`), the tenant-scoped category CRUD service of the
astracampaign backend, together with a model of the Prisma relational store
it runs against.

Modelling conventions:
* a `tenantId` argument of `none` is the TypeScript `undefined`
  (super-admin bypass: no tenant filter is applied);
* the store state is an explicit `Store` value threaded through every
  operation; each operation returns `Except ... × Store` so that a thrown
  error still reports the (unchanged or partially changed) store;
* JavaScript string operations (`trim`, `toLowerCase`, truthiness) are
  embedded as structurally recursive functions over the character list of
  the string, so every definition evaluates by kernel reduction;
* Prisma error objects are embedded as `StoreErr` carrying their `code`
  string (`"P2002"` is the unique-constraint-violation code);
* `Math.floor(Math.random() * defaultColors.length)` is embedded by an
  explicit `rand : Nat` argument reduced modulo the palette length.
-/

namespace AstraCategories

/-- ASCII whitespace test, embedding the character class JavaScript
`String.prototype.trim` removes (for the space, tab, LF and CR characters
that occur in the data handled by this service). -/
def isWS (c : Char) : Bool :=
  c == ' ' || c == '\t' || c == '\n' || c == '\r'

/-- List-level trim: drop whitespace from both ends. -/
def trimList (l : List Char) : List Char :=
  ((l.dropWhile isWS).reverse.dropWhile isWS).reverse

/-- Embedding of JavaScript `s.trim()`. -/
def strTrim (s : String) : String :=
  ⟨trimList s.data⟩

/-- ASCII lower-casing of one character, embedding what
`String.prototype.toLowerCase` does on the ASCII range. -/
def lowerChar (c : Char) : Char :=
  if 65 ≤ c.toNat && c.toNat ≤ 90 then Char.ofNat (c.toNat + 32) else c

/-- Embedding of JavaScript `s.toLowerCase()`. -/
def strLower (s : String) : String :=
  ⟨s.data.map lowerChar⟩

/-- Embedding of JavaScript string emptiness (`s === ''`, the falsy case of
a string). -/
def strIsEmpty (s : String) : Bool :=
  s.data.isEmpty

/-- Does `l` start with `pat`? (helper for substring containment). -/
def startsWithList : List Char → List Char → Bool
  | _, [] => true
  | [], _ :: _ => false
  | a :: as, b :: bs => a == b && startsWithList as bs

/-- Does `pat` occur as a contiguous run inside `l`? -/
def containsList (l pat : List Char) : Bool :=
  match l with
  | [] => pat.isEmpty
  | _ :: t => startsWithList l pat || containsList t pat

/-- Embedding of a Prisma case-insensitive `contains` filter clause:
`hay` contains `needle` ignoring letter case. -/
def ciContains (hay needle : String) : Bool :=
  containsList (strLower hay).data (strLower needle).data

/-- Embedding of a Prisma `equals … mode: insensitive` filter clause. -/
def ciEq (a b : String) : Bool :=
  strLower a == strLower b

/-- One row of the `Category` table. -/
structure Category where
  id : Nat
  nome : String
  cor : String
  descricao : Option String
  tenantId : Option String
  criadoEm : Nat
deriving DecidableEq, Repr

/-- The `CategoryInput` payload type (`nome`, `cor`, optional `descricao`). -/
structure CategoryInput where
  nome : String
  cor : String
  descricao : Option String
deriving DecidableEq, Repr

/-- The state of the backing relational store: the table rows in insertion
order, the next generated id, and the clock used for `criadoEm`. -/
structure Store where
  rows : List Category
  nextId : Nat
  now : Nat
deriving DecidableEq, Repr

/-- A Prisma-level error, identified by its `code` string (`"P2002"` is the
unique-constraint violation). -/
structure StoreErr where
  code : String
deriving DecidableEq, Repr

/-- Errors thrown by the service layer: a plain `Error(msg)` thrown by the
service itself, or a store error re-thrown unmodified. -/
inductive SvcError where
  | appError (msg : String)
  | storeError (e : StoreErr)
deriving DecidableEq, Repr

instance exceptDecEq {ε α : Type} [DecidableEq ε] [DecidableEq α] :
    DecidableEq (Except ε α) := fun a b =>
  match a, b with
  | .error x, .error y =>
    if h : x = y then isTrue (by rw [h])
    else isFalse (by intro hh; cases hh; exact h rfl)
  | .ok x, .ok y =>
    if h : x = y then isTrue (by rw [h])
    else isFalse (by intro hh; cases hh; exact h rfl)
  | .error _, .ok _ => isFalse (by intro h; cases h)
  | .ok _, .error _ => isFalse (by intro h; cases h)

/-- Embedding of the tenant filter added to a Prisma `where` object by
`if (tenantId !== undefined) where.tenantId = tenantId`. -/
def tenantMatch (tenantId : Option String) (r : Category) : Bool :=
  match tenantId with
  | none => true
  | some t => r.tenantId == some t

/-- Creation-time uniqueness check of the backing store.

Modelled from the spec: the Prisma schema is not part of the source under
`src/`; the spec's data-model invariant states that within the same
`tenantId` scope no two rows may have `nome` equal under case-insensitive
comparison, "enforced by a uniqueness constraint at the store level", and
that `create` "fails with a distinguishable UniqueConstraintViolation kind
when a uniqueness rule is broken" (Prisma signals this with code `P2002`). -/
def violatesUnique (rows : List Category) (nome : String) (tenantId : Option String) : Bool :=
  rows.any (fun r => r.tenantId == tenantId && ciEq r.nome nome)

/-- Embedding of `prisma.category.create`: generates the id and the
`criadoEm` timestamp, appends the row, or fails with `P2002` when the
uniqueness constraint is violated. -/
def storeCreate (st : Store) (nome cor : String) (descricao : Option String)
    (tenantId : Option String) : Except StoreErr (Category × Store) :=
  if violatesUnique st.rows nome tenantId then
    .error ⟨"P2002"⟩
  else
    let c : Category := ⟨st.nextId, nome, cor, descricao, tenantId, st.now⟩
    .ok (c, ⟨st.rows ++ [c], st.nextId + 1, st.now + 1⟩)

/-- Embedding of `prisma.category.update({ where: { id }, data })`: rewrites
the row with the given primary key, or fails (`P2025` when the row is
absent, `P2002` when the new `nome` would collide with another row of the
same tenant under the store's uniqueness constraint). -/
def storeUpdate (st : Store) (id : Nat) (nome cor : String)
    (descricao : Option String) : Except StoreErr (Category × Store) :=
  match st.rows.find? (fun r => r.id == id) with
  | none => .error ⟨"P2025"⟩
  | some target =>
    if st.rows.any (fun r => r.id != id && r.tenantId == target.tenantId && ciEq r.nome nome) then
      .error ⟨"P2002"⟩
    else
      let upd := fun r : Category =>
        if r.id == id then { r with nome := nome, cor := cor, descricao := descricao } else r
      .ok ({ target with nome := nome, cor := cor, descricao := descricao },
           { st with rows := st.rows.map upd })

/-- Embedding of `prisma.category.delete({ where: { id } })`. -/
def storeDelete (st : Store) (id : Nat) : Store :=
  { st with rows := st.rows.filter (fun r => r.id != id) }

/-- Embedding of `data.descricao || null`: a falsy `descricao` (absent, or
the empty string) is stored as null. -/
def normDescricao (d : Option String) : Option String :=
  match d with
  | none => none
  | some s => if strIsEmpty s then none else some s

/-- Descending order on `criadoEm` (`orderBy: { criadoEm: 'desc' }`). -/
def catGE (a b : Category) : Prop :=
  b.criadoEm ≤ a.criadoEm

instance : DecidableRel catGE := fun a b => Nat.decLe b.criadoEm a.criadoEm

instance : IsTotal Category catGE := ⟨fun a b => Nat.le_total b.criadoEm a.criadoEm⟩

instance : IsTrans Category catGE := ⟨fun _ _ _ h1 h2 => Nat.le_trans h2 h1⟩

/-- The rows of the table sorted by `criadoEm` descending, the order every
listing query of the service requests. -/
def sortDesc (l : List Category) : List Category :=
  List.insertionSort catGE l

namespace CategoryService

/-- Truthiness of the optional `search` argument (`if (search)`): an absent
or empty string applies no filter. -/
def searchTruthy (search : Option String) : Bool :=
  match search with
  | none => false
  | some s => !strIsEmpty s

/-- The `OR` clause built by `getCategories` for a truthy search string:
`nome` or `descricao` contains the (lower-cased) search term
case-insensitively; a null `descricao` matches nothing. -/
def searchClause (searchLower : String) (r : Category) : Bool :=
  ciContains r.nome searchLower ||
    (match r.descricao with
     | some d => ciContains d searchLower
     | none => false)

/-- The full `where` object of `getCategories`: tenant filter (when scoped)
conjoined with the search `OR` clause (when the search string is truthy). -/
def wherePred (search : Option String) (tenantId : Option String) (r : Category) : Bool :=
  tenantMatch tenantId r &&
    (if searchTruthy search then searchClause (strLower (search.getD "")) r else true)

/-- The `CategoriesResponse` shape returned by `getCategories`. -/
structure CategoriesResponse where
  categories : List Category
  total : Nat
  page : Nat
  pageSize : Nat
  totalPages : Nat
deriving DecidableEq, Repr

/-- Embedding of `CategoryService.getCategories`: filter by tenant and
search, order by `criadoEm` descending, skip `(page-1)*pageSize`, take
`pageSize`, and report `total` and `totalPages = ceil(total/pageSize)`. -/
def getCategories (search : Option String) (page pageSize : Nat)
    (tenantId : Option String) (st : Store) : CategoriesResponse :=
  let matching := st.rows.filter (wherePred search tenantId)
  let categories := ((sortDesc matching).drop ((page - 1) * pageSize)).take pageSize
  let total := matching.length
  { categories := categories
    total := total
    page := page
    pageSize := pageSize
    totalPages := (total + pageSize - 1) / pageSize }

/-- Embedding of `CategoryService.getCategoryById`: `findFirst` on
`{ id, tenantId? }`, throwing `Error('Categoria não encontrada')` when
nothing is visible. -/
def getCategoryById (id : Nat) (tenantId : Option String) (st : Store) :
    Except SvcError Category :=
  match st.rows.find? (fun r => r.id == id && tenantMatch tenantId r) with
  | some c => .ok c
  | none => .error (.appError "Categoria não encontrada")

/-- Embedding of `CategoryService.createCategory`: a straight insert with
`descricao || null`; any store failure propagates unmodified. -/
def createCategory (data : CategoryInput) (tenantId : Option String) (st : Store) :
    Except SvcError Category × Store :=
  match storeCreate st data.nome data.cor (normDescricao data.descricao) tenantId with
  | .ok (c, st') => (.ok c, st')
  | .error e => (.error (.storeError e), st)

/-- Embedding of `CategoryService.updateCategory`: scoped existence check
(`Error('Categoria não encontrada')` otherwise), then an update by primary
key overwriting `nome`, `cor` and `descricao || null`. -/
def updateCategory (id : Nat) (data : CategoryInput) (tenantId : Option String)
    (st : Store) : Except SvcError Category × Store :=
  match st.rows.find? (fun r => r.id == id && tenantMatch tenantId r) with
  | none => (.error (.appError "Categoria não encontrada"), st)
  | some _ =>
    match storeUpdate st id data.nome data.cor (normDescricao data.descricao) with
    | .ok (c, st') => (.ok c, st')
    | .error e => (.error (.storeError e), st)

/-- Embedding of `CategoryService.deleteCategory`: scoped existence check
(`Error('Categoria não encontrada')` otherwise), then a delete by primary
key. -/
def deleteCategory (id : Nat) (tenantId : Option String) (st : Store) :
    Except SvcError Unit × Store :=
  match st.rows.find? (fun r => r.id == id && tenantMatch tenantId r) with
  | none => (.error (.appError "Categoria não encontrada"), st)
  | some _ => (.ok (), storeDelete st id)

/-- Embedding of `CategoryService.getAllCategories`. -/
def getAllCategories (tenantId : Option String) (st : Store) : List Category :=
  sortDesc (st.rows.filter (tenantMatch tenantId))

/-- The case-insensitive name lookup used by `findOrCreateCategoryByName`
(`findFirst` on `{ nome: { equals, mode: 'insensitive' }, tenantId? }`). -/
def findFirstCi (rows : List Category) (nome : String) (tenantId : Option String) :
    Option Category :=
  rows.find? (fun r => ciEq r.nome nome && tenantMatch tenantId r)

/-- The exact (case-sensitive) fallback lookup of the recovery path
(`findFirst` on `{ nome, tenantId? }`). -/
def findFirstExact (rows : List Category) (nome : String) (tenantId : Option String) :
    Option Category :=
  rows.find? (fun r => r.nome == nome && tenantMatch tenantId r)

/-- Embedding of the `catch` block of `findOrCreateCategoryByName`
(lines 205–227): on a `P2002` failure re-run the case-insensitive lookup,
then the exact lookup, and re-throw the original error when both miss;
every other error is re-thrown directly. The row list is a parameter
because under concurrency the table seen at catch time differs from the
one seen at the initial lookup. -/
def handleCreateError (rows : List Category) (nomeTrimmed : String)
    (tenantId : Option String) (err : StoreErr) : Except SvcError Nat :=
  if err.code == "P2002" then
    match findFirstCi rows nomeTrimmed tenantId with
    | some c => .ok c.id
    | none =>
      match findFirstExact rows nomeTrimmed tenantId with
      | some c => .ok c.id
      | none => .error (.storeError err)
  else
    .error (.storeError err)

/-- The fixed ten-colour palette of `findOrCreateCategoryByName`. -/
def defaultColors : List String :=
  ["#1e3a5f", "#4a9eff", "#10B981", "#F59E0B", "#EF4444",
   "#8B5CF6", "#F97316", "#06B6D4", "#84CC16", "#EC4899"]

/-- The random palette pick
`defaultColors[Math.floor(Math.random() * defaultColors.length)]`, with
`rand` standing for the random draw. -/
def pickColor (rand : Nat) : String :=
  defaultColors.getD (rand % defaultColors.length) "#1e3a5f"

/-- Embedding of `CategoryService.findOrCreateCategoryByName`: validate,
trim, look up case-insensitively, otherwise insert with a random palette
colour, recovering from a `P2002` race via `handleCreateError`. `rand`
stands for the value of `Math.floor(Math.random() * defaultColors.length)`. -/
def findOrCreateCategoryByName (nome : String) (tenantId : Option String)
    (rand : Nat) (st : Store) : Except SvcError Nat × Store :=
  if strIsEmpty nome || strIsEmpty (strTrim nome) then
    (.error (.appError "Nome da categoria é obrigatório"), st)
  else
    let nomeTrimmed := strTrim nome
    match findFirstCi st.rows nomeTrimmed tenantId with
    | some c => (.ok c.id, st)
    | none =>
      let randomColor := pickColor rand
      match storeCreate st nomeTrimmed randomColor none tenantId with
      | .ok (c, st') => (.ok c.id, st')
      | .error err => (handleCreateError st.rows nomeTrimmed tenantId err, st)

end CategoryService

end AstraCategories

open AstraCategories AstraCategories.CategoryService

/-- A concrete 25-row single-tenant store, used to exercise the pagination
arithmetic on concrete data. -/
def demoStore : Store :=
  ⟨(List.range 25).map (fun i => ⟨i, "c", "#fff", none, some "t1", i⟩), 25, 25⟩

/-- Helper: `List.find?` only depends on the pointwise behaviour of the
predicate. -/
theorem findq_congr {α : Type} {p q : α → Bool} (h : ∀ a, p a = q a) :
    ∀ l : List α, l.find? p = l.find? q
  | [] => rfl
  | a :: l => by
    simp only [List.find?]
    rw [h a, findq_congr h l]

/-- Helper: trimming an empty string yields an empty string. -/
theorem strIsEmpty_trim_of (s : String) (h : strIsEmpty s = true) :
    strIsEmpty (strTrim s) = true := by
  rcases s with ⟨l⟩
  have hl : l = [] := by simpa [strIsEmpty, List.isEmpty_iff] using h
  subst hl
  rfl

/-- Helper: a name that is non-empty after trimming passes the truthiness
guard of `findOrCreateCategoryByName`. -/
theorem guard_false_of_trim (s : String) (h : strIsEmpty (strTrim s) = false) :
    (strIsEmpty s || strIsEmpty (strTrim s)) = false := by
  have h1 : strIsEmpty s = false := by
    cases he : strIsEmpty s
    · rfl
    · rw [strIsEmpty_trim_of s he] at h
      cases h
  simp [h1, h]

/-- Helper: a row whose stored `tenantId` is exactly the scope value is
visible in that scope. -/
theorem tenantMatch_self (t : Option String) (r : Category) (h : r.tenantId = t) :
    tenantMatch t r = true := by
  cases t with
  | none => rfl
  | some v => simp [tenantMatch, h]

/-- Helper: a row whose stored `tenantId` beq-matches the scope value is
visible in that scope. -/
theorem tenantMatch_of_beq (t : Option String) (r : Category)
    (h : (r.tenantId == t) = true) : tenantMatch t r = true := by
  cases t with
  | none => rfl
  | some v => simpa [tenantMatch] using h

/-- Helper: case-insensitive equality is reflexive. -/
theorem ciEq_refl (s : String) : ciEq s s = true := by
  simp [ciEq]

/-- C10: `getCategories` with the empty string as search argument is
identical to `getCategories` with the search argument absent, for every
page, page size and tenant scope: the empty string is falsy, so no
name/descricao filter is applied at all. -/
theorem getCategories_empty_search_eq_none (page pageSize : Nat)
    (t : Option String) (st : Store) :
    getCategories (some "") page pageSize t st = getCategories none page pageSize t st := rfl

/-- C3: `findOrCreateCategoryByName` on a `nome` that is empty after
trimming fails with the validation error "Nome da categoria é obrigatório"
and leaves the store untouched (no lookup result is used, no insert
happens); for every `nome`, any row the call adds to the store carries the
trimmed `nome` as its stored name. -/
theorem findOrCreate_empty_nome_validation (nome : String) (t : Option String)
    (rand : Nat) (st : Store) :
    (strIsEmpty (strTrim nome) = true →
      findOrCreateCategoryByName nome t rand st =
        (.error (.appError "Nome da categoria é obrigatório"), st)) ∧
    (∀ r ∈ (findOrCreateCategoryByName nome t rand st).2.rows,
      r ∈ st.rows ∨ r.nome = strTrim nome) := by
  constructor
  · intro h
    simp [findOrCreateCategoryByName, h]
  · intro r hr
    by_cases hg : (strIsEmpty nome || strIsEmpty (strTrim nome)) = true
    · simp [findOrCreateCategoryByName, hg] at hr
      exact Or.inl hr
    · rw [Bool.not_eq_true] at hg
      rcases hfind : findFirstCi st.rows (strTrim nome) t with _ | c
      · by_cases hv : violatesUnique st.rows (strTrim nome) t = true
        · simp [findOrCreateCategoryByName, hg, hfind, storeCreate, hv] at hr
          exact Or.inl hr
        · rw [Bool.not_eq_true] at hv
          simp [findOrCreateCategoryByName, hg, hfind, storeCreate, hv] at hr
          rcases hr with hr | hr
          · exact Or.inl hr
          · subst hr
            exact Or.inr rfl
      · simp [findOrCreateCategoryByName, hg, hfind] at hr
        exact Or.inl hr

/-- C2: inside the catch block of `findOrCreateCategoryByName`, a failure
with Prisma code `P2002` is not propagated: the case-insensitive lookup is
re-run and its row's id returned when it hits; on a miss the exact
case-sensitive lookup is tried and its row's id returned when it hits; and
only when both lookups miss is the original error propagated. -/
theorem handleCreateError_p2002_recovery (rows : List Category) (n : String)
    (t : Option String) (err : StoreErr) (h : err.code = "P2002") :
    (∀ c, findFirstCi rows n t = some c →
      handleCreateError rows n t err = .ok c.id) ∧
    (findFirstCi rows n t = none → ∀ c, findFirstExact rows n t = some c →
      handleCreateError rows n t err = .ok c.id) ∧
    (findFirstCi rows n t = none → findFirstExact rows n t = none →
      handleCreateError rows n t err = .error (.storeError err)) := by
  refine ⟨fun c hc => ?_, fun hci c hcs => ?_, fun hci hcs => ?_⟩
  · simp [handleCreateError, h, hc]
  · simp [handleCreateError, h, hci, hcs]
  · simp [handleCreateError, h, hci, hcs]

/-- C4: inside the catch block of `findOrCreateCategoryByName`, any insert
failure whose code is not `P2002` is propagated unmodified, independent of
the table contents (no recovery lookup influences the outcome). -/
theorem handleCreateError_non_p2002_propagates (rows : List Category) (n : String)
    (t : Option String) (err : StoreErr) (h : err.code ≠ "P2002") :
    handleCreateError rows n t err = .error (.storeError err) := by
  have hb : (err.code == "P2002") = false := by
    simpa using h
  simp [handleCreateError, hb]

/-- C9: `createCategory` and `updateCategory` normalise `descricao` with
`|| null`, so a falsy value — absent or the empty string — is stored as
null, and no row either of them writes ever carries an empty-string
`descricao`. -/
theorem descricao_never_empty_string (data : CategoryInput) (id : Nat)
    (t : Option String) (st : Store) :
    normDescricao data.descricao ≠ some "" ∧
    ((data.descricao = none ∨ data.descricao = some "") →
      normDescricao data.descricao = none) ∧
    (∀ c st', createCategory data t st = (.ok c, st') →
      c.descricao = normDescricao data.descricao ∧
      ∀ r ∈ st'.rows, r ∈ st.rows ∨ r.descricao = normDescricao data.descricao) ∧
    (∀ c st', updateCategory id data t st = (.ok c, st') →
      c.descricao = normDescricao data.descricao ∧
      ∀ r ∈ st'.rows, r ∈ st.rows ∨ r.descricao = normDescricao data.descricao) := by
  refine ⟨?_, ?_, ?_, ?_⟩
  · rcases hd : data.descricao with _ | s
    · simp [normDescricao]
    · by_cases he : strIsEmpty s = true
      · simp [normDescricao, he]
      · rw [Bool.not_eq_true] at he
        simp only [normDescricao, he, Bool.false_eq_true, if_false]
        intro hcontra
        have hs : s = "" := by simpa using hcontra
        subst hs
        simp [strIsEmpty] at he
  · rintro (hd | hd) <;> simp [normDescricao, hd, strIsEmpty]
  · intro c st' h
    by_cases hv : violatesUnique st.rows data.nome t = true
    · simp [createCategory, storeCreate, hv] at h
    · rw [Bool.not_eq_true] at hv
      simp [createCategory, storeCreate, hv] at h
      obtain ⟨hc, hst⟩ := h
      subst hc
      constructor
      · rfl
      · intro r hr
        rw [← hst] at hr
        simp at hr
        rcases hr with hr | hr
        · exact Or.inl hr
        · subst hr
          exact Or.inr rfl
  · intro c st' h
    rcases hf : st.rows.find? (fun r => r.id == id && tenantMatch t r) with _ | c0
    · simp [updateCategory, hf] at h
    · rcases hf2 : st.rows.find? (fun r => r.id == id) with _ | target
      · simp [updateCategory, hf, storeUpdate, hf2] at h
      · by_cases hv : (st.rows.any (fun r =>
            r.id != id && r.tenantId == target.tenantId && ciEq r.nome data.nome)) = true
        · simp [updateCategory, hf, storeUpdate, hf2, hv] at h
        · rw [Bool.not_eq_true] at hv
          simp [updateCategory, hf, storeUpdate, hf2, hv] at h
          obtain ⟨hc, hst⟩ := h
          subst hc
          constructor
          · rfl
          · intro r hr
            rw [← hst] at hr
            simp at hr
            obtain ⟨x, hx, hxr⟩ := hr
            by_cases hid : x.id = id
            · simp only [hid, if_true] at hxr
              subst hxr
              exact Or.inr rfl
            · simp only [hid, if_false] at hxr
              subst hxr
              exact Or.inl hx

/-- C7: `updateCategory` and `deleteCategory` on an id that has no visible
row in the caller's tenant scope — absent entirely, or belonging to another
tenant — fail with the not-found error "Categoria não encontrada" and
return the store exactly as it was: no row is created, modified or
removed. -/
theorem update_delete_not_found_no_mutation (id : Nat) (data : CategoryInput)
    (t : Option String) (st : Store)
    (h : ∀ c ∈ st.rows, ¬(c.id = id ∧ tenantMatch t c = true)) :
    updateCategory id data t st = (.error (.appError "Categoria não encontrada"), st) ∧
    deleteCategory id t st = (.error (.appError "Categoria não encontrada"), st) := by
  have hf : st.rows.find? (fun r => r.id == id && tenantMatch t r) = none := by
    rw [List.find?_eq_none]
    intro x hx hcontra
    rw [Bool.and_eq_true] at hcontra
    exact h x hx ⟨by simpa using hcontra.1, hcontra.2⟩
  constructor
  · simp [updateCategory, hf]
  · simp [deleteCategory, hf]

/-- C8: a successful `updateCategory` rewrites exactly the row with the
requested id, overwriting only `nome`, `cor` and `descricao` (normalised by
`|| null`); the row keeps its `id`, `tenantId` and `criadoEm`, every other
row is untouched, and the store's id counter and clock are unchanged. -/
theorem updateCategory_frame (id : Nat) (data : CategoryInput) (t : Option String)
    (st : Store) (c : Category) (st' : Store)
    (h : updateCategory id data t st = (.ok c, st')) :
    st'.rows = st.rows.map (fun r => if r.id == id
        then { r with nome := data.nome, cor := data.cor,
                      descricao := normDescricao data.descricao } else r) ∧
    st'.nextId = st.nextId ∧ st'.now = st.now ∧
    (∀ r ∈ st.rows, r.id ≠ id → r ∈ st'.rows) ∧
    (∀ r ∈ st.rows, r.id = id →
      ({ r with nome := data.nome, cor := data.cor,
                descricao := normDescricao data.descricao } : Category) ∈ st'.rows) := by
  rcases hf : st.rows.find? (fun r => r.id == id && tenantMatch t r) with _ | c0
  · simp [updateCategory, hf] at h
  · rcases hf2 : st.rows.find? (fun r => r.id == id) with _ | target
    · simp [updateCategory, hf, storeUpdate, hf2] at h
    · by_cases hv : (st.rows.any (fun r =>
          r.id != id && r.tenantId == target.tenantId && ciEq r.nome data.nome)) = true
      · simp [updateCategory, hf, storeUpdate, hf2, hv] at h
      · rw [Bool.not_eq_true] at hv
        simp [updateCategory, hf, storeUpdate, hf2, hv] at h
        obtain ⟨hc, hst⟩ := h
        refine ⟨?_, hst.symm ▸ rfl, hst.symm ▸ rfl, ?_, ?_⟩
        · rw [← hst]
          apply List.map_congr_left
          intro r _
          by_cases hid : r.id = id
          · simp [hid]
          · simp [hid]
        · intro r hr hrid
          rw [← hst]
          simp only [List.mem_map]
          exact ⟨r, hr, by simp [hrid]⟩
        · intro r hr hrid
          rw [← hst]
          simp only [List.mem_map]
          exact ⟨r, hr, by simp [hrid]⟩

/-- C5: a row stored under concrete tenant `a` is invisible to every
operation scoped to a different concrete tenant `b`: `getCategoryById`
never returns it, `getCategories` never lists it, and the case-insensitive
lookup of `findOrCreateCategoryByName` never finds it — even when the
queried id or name matches the row. -/
theorem tenant_isolation (st : Store) (c : Category) (a b : String)
    (hc : c ∈ st.rows) (ht : c.tenantId = some a) (hab : b ≠ a)
    (search : Option String) (page pageSize : Nat) (n : String) :
    getCategoryById c.id (some b) st ≠ .ok c ∧
    c ∉ (getCategories search page pageSize (some b) st).categories ∧
    findFirstCi st.rows n (some b) ≠ some c := by
  have htm : tenantMatch (some b) c = false := by
    simp only [tenantMatch, ht, beq_eq_false_iff_ne, ne_eq, Option.some.injEq]
    exact fun h => hab h.symm
  refine ⟨?_, ?_, ?_⟩
  · intro hok
    rcases hfind : st.rows.find? (fun r => r.id == c.id && tenantMatch (some b) r) with _ | r
    · simp [getCategoryById, hfind] at hok
    · simp [getCategoryById, hfind] at hok
      subst hok
      have hp := List.find?_some hfind
      rw [Bool.and_eq_true, htm] at hp
      exact absurd hp.2 (by simp)
  · intro hmem
    simp only [getCategories] at hmem
    have h1 : c ∈ sortDesc (st.rows.filter (wherePred search (some b))) :=
      List.mem_of_mem_drop (List.mem_of_mem_take hmem)
    have h2 : c ∈ st.rows.filter (wherePred search (some b)) :=
      (List.perm_insertionSort catGE _).mem_iff.mp h1
    have h3 := (List.mem_filter.mp h2).2
    rw [wherePred, Bool.and_eq_true, htm] at h3
    exact absurd h3.1 (by simp)
  · intro hfind
    have hp := List.find?_some hfind
    rw [Bool.and_eq_true, htm] at hp
    exact absurd hp.2 (by simp)

/-- C6: `getCategories` returns the matching rows sorted by `criadoEm`
descending, skipping `(page-1)*pageSize` and taking at most `pageSize`,
with `total` the full matching count and
`totalPages = ceil(total/pageSize)`; with 25 matching rows and
`pageSize = 10`, `totalPages` is 3, page 3 holds the remaining 5 rows, and
any later page is empty while `total` is unchanged. -/
theorem getCategories_pagination (search : Option String) (page pageSize : Nat)
    (t : Option String) (st : Store) (hp : 1 ≤ page) (hps : 0 < pageSize) :
    (getCategories search page pageSize t st).categories =
      ((sortDesc (st.rows.filter (wherePred search t))).drop
        ((page - 1) * pageSize)).take pageSize ∧
    (getCategories search page pageSize t st).total =
      (st.rows.filter (wherePred search t)).length ∧
    (getCategories search page pageSize t st).totalPages =
      ((st.rows.filter (wherePred search t)).length + pageSize - 1) / pageSize ∧
    List.Sorted catGE (getCategories search page pageSize t st).categories ∧
    ((st.rows.filter (wherePred search t)).length = 25 → pageSize = 10 →
      (getCategories search page pageSize t st).totalPages = 3 ∧
      (page = 3 → (getCategories search page pageSize t st).categories.length = 5) ∧
      (4 ≤ page → (getCategories search page pageSize t st).categories = [])) := by
  refine ⟨rfl, rfl, rfl, ?_, ?_⟩
  · have hs : List.Sorted catGE (sortDesc (st.rows.filter (wherePred search t))) :=
      List.sorted_insertionSort catGE _
    exact List.Pairwise.sublist ((List.take_sublist _ _).trans (List.drop_sublist _ _)) hs
  · intro h25 hps10
    subst hps10
    have hlen : (sortDesc (st.rows.filter (wherePred search t))).length = 25 := by
      unfold sortDesc
      rw [(List.perm_insertionSort catGE _).length_eq]
      exact h25
    refine ⟨?_, ?_, ?_⟩
    · show ((st.rows.filter (wherePred search t)).length + 10 - 1) / 10 = 3
      rw [h25]
    · intro hpage
      subst hpage
      show (((sortDesc (st.rows.filter (wherePred search t))).drop
        ((3 - 1) * 10)).take 10).length = 5
      rw [List.length_take, List.length_drop, hlen]
      decide
    · intro hpage4
      have hle : (sortDesc (st.rows.filter (wherePred search t))).length ≤ (page - 1) * 10 := by
        rw [hlen]
        omega
      show ((sortDesc (st.rows.filter (wherePred search t))).drop
        ((page - 1) * 10)).take 10 = []
      rw [List.drop_eq_nil_of_le hle, List.take_nil]

/-- C1: calling `findOrCreateCategoryByName` twice sequentially in the same
tenant scope with two names that agree after trimming up to letter case
(e.g. "Work" then "WORK ") returns the same id both times, and afterwards
exactly one visible row carries that trimmed name under case-insensitive
comparison — provided the store starts with at most one such visible row
(the store-level uniqueness invariant). -/
theorem findOrCreate_sequential_idempotent
    (st : Store) (t : Option String) (n1 n2 : String) (r1 r2 : Nat)
    (hmax : (st.rows.filter
      (fun r => ciEq r.nome (strTrim n1) && tenantMatch t r)).length ≤ 1)
    (hne1 : strIsEmpty (strTrim n1) = false)
    (hne2 : strIsEmpty (strTrim n2) = false)
    (hci : strLower (strTrim n1) = strLower (strTrim n2)) :
    ∃ id st1 st2,
      findOrCreateCategoryByName n1 t r1 st = (.ok id, st1) ∧
      findOrCreateCategoryByName n2 t r2 st1 = (.ok id, st2) ∧
      (st2.rows.filter
        (fun r => ciEq r.nome (strTrim n1) && tenantMatch t r)).length = 1 := by
  have hg1 := guard_false_of_trim n1 hne1
  have hg2 := guard_false_of_trim n2 hne2
  have hpred : ∀ r : Category,
      (ciEq r.nome (strTrim n2) && tenantMatch t r) =
        (ciEq r.nome (strTrim n1) && tenantMatch t r) := by
    intro r
    simp [ciEq, hci]
  rcases hf : findFirstCi st.rows (strTrim n1) t with _ | c
  · -- first lookup misses: the insert succeeds and the second call finds it
    have hfx : st.rows.find? (fun r => ciEq r.nome (strTrim n1) && tenantMatch t r) = none := hf
    have hnone := List.find?_eq_none.mp hfx
    have hviol : violatesUnique st.rows (strTrim n1) t = false := by
      unfold violatesUnique
      rw [List.any_eq_false]
      intro r hr hcontra
      rw [Bool.and_eq_true] at hcontra
      exact hnone r hr (by
        rw [Bool.and_eq_true]
        exact ⟨hcontra.2, tenantMatch_of_beq t r hcontra.1⟩)
    have hcall1 : findOrCreateCategoryByName n1 t r1 st =
        (.ok st.nextId, ⟨st.rows ++
          [⟨st.nextId, strTrim n1, pickColor r1, none, t, st.now⟩],
          st.nextId + 1, st.now + 1⟩) := by
      simp [findOrCreateCategoryByName, hg1, hf, storeCreate, hviol]
    have hc0tm : tenantMatch t
        (⟨st.nextId, strTrim n1, pickColor r1, none, t, st.now⟩ : Category) = true :=
      tenantMatch_self t _ rfl
    have hpc2 : (fun r : Category => ciEq r.nome (strTrim n2) && tenantMatch t r)
        (⟨st.nextId, strTrim n1, pickColor r1, none, t, st.now⟩ : Category) = true := by
      show (ciEq (strTrim n1) (strTrim n2) && tenantMatch t
        (⟨st.nextId, strTrim n1, pickColor r1, none, t, st.now⟩ : Category)) = true
      rw [Bool.and_eq_true]
      exact ⟨by simp [ciEq, hci], hc0tm⟩
    have ha : st.rows.find? (fun r => ciEq r.nome (strTrim n2) && tenantMatch t r) = none := by
      rw [findq_congr hpred]
      exact hfx
    have hf2 : findFirstCi (st.rows ++
        [⟨st.nextId, strTrim n1, pickColor r1, none, t, st.now⟩]) (strTrim n2) t =
        some ⟨st.nextId, strTrim n1, pickColor r1, none, t, st.now⟩ := by
      unfold findFirstCi
      rw [List.find?_append, ha, Option.none_or]
      exact List.find?_cons_of_pos _ hpc2
    have hcall2 : findOrCreateCategoryByName n2 t r2
        (⟨st.rows ++ [⟨st.nextId, strTrim n1, pickColor r1, none, t, st.now⟩],
          st.nextId + 1, st.now + 1⟩ : Store) =
        (.ok st.nextId, ⟨st.rows ++
          [⟨st.nextId, strTrim n1, pickColor r1, none, t, st.now⟩],
          st.nextId + 1, st.now + 1⟩) := by
      simp [findOrCreateCategoryByName, hg2, hf2]
    have hfilnil : st.rows.filter (fun r => ciEq r.nome (strTrim n1) && tenantMatch t r) = [] :=
      List.filter_eq_nil_iff.mpr hnone
    have hpc1 : (fun r : Category => ciEq r.nome (strTrim n1) && tenantMatch t r)
        (⟨st.nextId, strTrim n1, pickColor r1, none, t, st.now⟩ : Category) = true := by
      show (ciEq (strTrim n1) (strTrim n1) && tenantMatch t
        (⟨st.nextId, strTrim n1, pickColor r1, none, t, st.now⟩ : Category)) = true
      rw [Bool.and_eq_true]
      exact ⟨ciEq_refl _, hc0tm⟩
    have hcount : ((st.rows ++
        [(⟨st.nextId, strTrim n1, pickColor r1, none, t, st.now⟩ : Category)]).filter
        (fun r => ciEq r.nome (strTrim n1) && tenantMatch t r)).length = 1 := by
      rw [List.filter_append, hfilnil, List.nil_append,
        List.filter_cons_of_pos (p := fun r : Category =>
          ciEq r.nome (strTrim n1) && tenantMatch t r) hpc1, List.filter_nil]
      rfl
    exact ⟨st.nextId,
      ⟨st.rows ++ [⟨st.nextId, strTrim n1, pickColor r1, none, t, st.now⟩],
        st.nextId + 1, st.now + 1⟩,
      ⟨st.rows ++ [⟨st.nextId, strTrim n1, pickColor r1, none, t, st.now⟩],
        st.nextId + 1, st.now + 1⟩,
      hcall1, hcall2, hcount⟩
  · -- first lookup hits: both calls return that row's id, store unchanged
    have hfx : st.rows.find? (fun r => ciEq r.nome (strTrim n1) && tenantMatch t r) = some c := hf
    have hf2 : findFirstCi st.rows (strTrim n2) t = some c := by
      unfold findFirstCi
      rw [findq_congr hpred]
      exact hfx
    refine ⟨c.id, st, st, ?_, ?_, ?_⟩
    · simp [findOrCreateCategoryByName, hg1, hf]
    · simp [findOrCreateCategoryByName, hg2, hf2]
    · have hpc := List.find?_some hfx
      have hmem : c ∈ st.rows.filter (fun r => ciEq r.nome (strTrim n1) && tenantMatch t r) :=
        List.mem_filter.mpr ⟨List.mem_of_find?_eq_some hfx, hpc⟩
      have hpos := List.length_pos_of_mem hmem
      omega

/-- Concrete run of the C1 theorem: "Work" then "WORK " in tenant t1,
starting from the empty store. -/
theorem findOrCreate_sequential_idempotent_witness :
    ((([] : List Category).filter
      (fun r => ciEq r.nome (strTrim "Work") && tenantMatch (some "t1") r)).length ≤ 1) ∧
    strIsEmpty (strTrim "Work") = false ∧
    strIsEmpty (strTrim "WORK ") = false ∧
    strLower (strTrim "Work") = strLower (strTrim "WORK ") ∧
    (∃ id st1 st2,
      findOrCreateCategoryByName "Work" (some "t1") 0 ⟨[], 0, 0⟩ = (.ok id, st1) ∧
      findOrCreateCategoryByName "WORK " (some "t1") 3 st1 = (.ok id, st2) ∧
      (st2.rows.filter
        (fun r => ciEq r.nome (strTrim "Work") && tenantMatch (some "t1") r)).length = 1) :=
  ⟨by decide, by decide, by decide, by decide,
    findOrCreate_sequential_idempotent ⟨[], 0, 0⟩ (some "t1") "Work" "WORK " 0 3
      (by decide) (by decide) (by decide) (by decide)⟩

/-- Concrete run of the C2 theorem: a `P2002` failure recovers to the id of
the case-insensitively matching row. -/
theorem handleCreateError_p2002_recovery_witness :
    handleCreateError [⟨7, "work", "#fff", none, some "t1", 0⟩] "Work" (some "t1")
      ⟨"P2002"⟩ = .ok 7 :=
  (handleCreateError_p2002_recovery [⟨7, "work", "#fff", none, some "t1", 0⟩]
      "Work" (some "t1") ⟨"P2002"⟩ rfl).1
    ⟨7, "work", "#fff", none, some "t1", 0⟩ (by decide)

/-- Concrete run of the C3 theorem: a whitespace-only name is rejected and
the store is unchanged. -/
theorem findOrCreate_empty_nome_validation_witness :
    findOrCreateCategoryByName "   " (some "t1") 0 ⟨[], 0, 0⟩ =
      (.error (.appError "Nome da categoria é obrigatório"), ⟨[], 0, 0⟩) :=
  (findOrCreate_empty_nome_validation "   " (some "t1") 0 ⟨[], 0, 0⟩).1 (by decide)

/-- Concrete run of the C4 theorem: a non-`P2002` failure is propagated even
though a matching row exists. -/
theorem handleCreateError_non_p2002_propagates_witness :
    handleCreateError [⟨7, "Work", "#fff", none, some "t1", 0⟩] "Work" (some "t1")
      ⟨"P1001"⟩ = .error (.storeError ⟨"P1001"⟩) :=
  handleCreateError_non_p2002_propagates [⟨7, "Work", "#fff", none, some "t1", 0⟩]
    "Work" (some "t1") ⟨"P1001"⟩ (by decide)

/-- Concrete run of the C5 theorem: a row of tenant t1 is invisible to every
read scoped to tenant t2. -/
theorem tenant_isolation_witness :
    getCategoryById 0 (some "t2")
      ⟨[⟨0, "Bills", "#FF0000", none, some "t1", 0⟩], 1, 1⟩ ≠
      .ok ⟨0, "Bills", "#FF0000", none, some "t1", 0⟩ ∧
    (⟨0, "Bills", "#FF0000", none, some "t1", 0⟩ : Category) ∉
      (getCategories none 1 10 (some "t2")
        ⟨[⟨0, "Bills", "#FF0000", none, some "t1", 0⟩], 1, 1⟩).categories ∧
    findFirstCi [⟨0, "Bills", "#FF0000", none, some "t1", 0⟩] "bills" (some "t2") ≠
      some ⟨0, "Bills", "#FF0000", none, some "t1", 0⟩ :=
  tenant_isolation ⟨[⟨0, "Bills", "#FF0000", none, some "t1", 0⟩], 1, 1⟩
    ⟨0, "Bills", "#FF0000", none, some "t1", 0⟩ "t1" "t2"
    (by decide) rfl (by decide) none 1 10 "bills"

/-- Concrete run of the C6 theorem on a 25-row store with page size 10:
page 3 carries the last 5 rows and `totalPages` is 3. -/
theorem getCategories_pagination_witness :
    (getCategories none 3 10 (some "t1") demoStore).totalPages = 3 ∧
    (getCategories none 3 10 (some "t1") demoStore).categories.length = 5 ∧
    (getCategories none 3 10 (some "t1") demoStore).total = 25 := by
  have hlen : (demoStore.rows.filter (wherePred none (some "t1"))).length = 25 := by decide
  obtain ⟨hcat, htot, htp, hsorted, hinst⟩ :=
    getCategories_pagination none 3 10 (some "t1") demoStore (by decide) (by decide)
  obtain ⟨h3, h5, hbeyond⟩ := hinst hlen rfl
  exact ⟨h3, h5 rfl, by rw [htot, hlen]⟩

/-- Concrete run of the C7 theorem: updating or deleting tenant t1's row
under tenant t2's scope fails and leaves the store untouched. -/
theorem update_delete_not_found_no_mutation_witness :
    updateCategory 0 ⟨"X", "#000", none⟩ (some "t2")
      ⟨[⟨0, "Bills", "#FF0000", none, some "t1", 0⟩], 1, 1⟩ =
      (.error (.appError "Categoria não encontrada"),
       ⟨[⟨0, "Bills", "#FF0000", none, some "t1", 0⟩], 1, 1⟩) ∧
    deleteCategory 0 (some "t2")
      ⟨[⟨0, "Bills", "#FF0000", none, some "t1", 0⟩], 1, 1⟩ =
      (.error (.appError "Categoria não encontrada"),
       ⟨[⟨0, "Bills", "#FF0000", none, some "t1", 0⟩], 1, 1⟩) :=
  update_delete_not_found_no_mutation 0 ⟨"X", "#000", none⟩ (some "t2")
    ⟨[⟨0, "Bills", "#FF0000", none, some "t1", 0⟩], 1, 1⟩ (by decide)

/-- Concrete run of the C8 theorem: after a successful update the stored
rows are exactly the pointwise rewrite of the old rows. -/
theorem updateCategory_frame_witness :
    (⟨[⟨5, "New", "#222", some "x", some "t1", 2⟩], 6, 3⟩ : Store).rows =
      ([(⟨5, "Old", "#111", some "d", some "t1", 2⟩ : Category)]).map
        (fun r => if r.id == 5 then { r with nome := "New", cor := "#222",
                                             descricao := normDescricao (some "x") }
                  else r) :=
  (updateCategory_frame 5 ⟨"New", "#222", some "x"⟩ (some "t1")
    ⟨[⟨5, "Old", "#111", some "d", some "t1", 2⟩], 6, 3⟩
    ⟨5, "New", "#222", some "x", some "t1", 2⟩
    ⟨[⟨5, "New", "#222", some "x", some "t1", 2⟩], 6, 3⟩ (by decide)).1

/-- Concrete run of the C9 theorem: an empty-string `descricao` is
normalised to null. -/
theorem descricao_never_empty_string_witness :
    normDescricao (CategoryInput.mk "Bills" "#FF0000" (some "")).descricao = none :=
  (descricao_never_empty_string ⟨"Bills", "#FF0000", some ""⟩ 0 (some "t1")
    ⟨[], 0, 0⟩).2.1 (Or.inr rfl)
